import Mathlib

/-!
Shallow embedding of `src/drive-tester-cli.py`.

The script's core is `quick_read_test`: open a raw device handle, query its
byte length, sample `num_reads` random blocks of `block_size` bytes, and
report per-sample trace lines plus summary statistics.  The interactive
menu (`interactive_menu`) validates a user-entered sample count and probes
the drive length with a preliminary handle.

External platform calls (CreateFile, DeviceIoControl, SetFilePointer,
ReadFile, CloseHandle, random.randint, time.time) are modelled by an
environment: a `Device` record for open/length-query outcomes, and a
`SampleEnv` giving, per loop iteration, the raw randomness, the wall-clock
duration of the positioning call, the duration of the read call, and the
read outcome.  Wall-clock time is threaded as an explicit rational clock;
console output and handle lifecycle are recorded as traces.
-/

namespace DriveTester

/-- Outcome of one loop iteration's platform calls: `SetFilePointer` raises,
`ReadFile` raises, or `ReadFile` returns `len` bytes (possibly short). -/
inductive SampleOutcome where
  | posError : SampleOutcome
  | readError : SampleOutcome
  | success : Nat → SampleOutcome
deriving DecidableEq

/-- Per-iteration environment: raw randomness consumed by `random.randint`,
durations of the `SetFilePointer` and `ReadFile` calls, and the read outcome. -/
structure SampleEnv where
  rand : Nat → Nat
  setPosDur : Nat → ℚ
  readDur : Nat → ℚ
  outcome : Nat → SampleOutcome

/-- Python `random.randint(lo, hi)`: uniform over the closed range `[lo, hi]`.
Modelled by reducing the raw random value into the range. -/
def randint (lo hi r : Nat) : Nat := lo + r % (hi + 1 - lo)

/-- One read attempt's recorded outcome (a `SampleResult` of the spec). -/
structure SampleResult where
  blockIndex : Nat
  offset : Nat
  percent : ℚ
  ok : Bool
  readLen : Nat
  elapsed : ℚ
deriving DecidableEq

/-- One console output line of `quick_read_test`, with the numbers it carries. -/
inductive Line where
  | traceOk : Nat → Nat → Nat → ℚ → ℚ → Line
  | traceErr : Nat → Nat → ℚ → Line
  | successRate : Nat → Nat → ℚ → Line
  | avgLatency : ℚ → Line
  | avgThroughput : ℚ → Line
  | errOpening : Line
  | errTooSmall : Line
  | errSetup : Line
deriving DecidableEq

/-- Device-handle lifecycle events. -/
inductive HEvent where
  | opened : HEvent
  | closed : HEvent
deriving DecidableEq

/-- The device as the sampler sees it: does `CreateFile` succeed, and what
does the `IOCTL_DISK_GET_LENGTH_INFO` query return (`none` = it raises). -/
structure Device where
  openOk : Bool
  queryLen : Option Nat

/-- Mutable state of the sampling loop in `quick_read_test` (lines 88-109):
the four accumulators, the wall clock, and the traces produced so far. -/
structure LoopState where
  total_bytes : Nat
  total_time : ℚ
  successes : Nat
  failures : Nat
  clock : ℚ
  lines : List Line
  samples : List SampleResult

def initState : LoopState :=
  { total_bytes := 0, total_time := 0, successes := 0, failures := 0,
    clock := 0, lines := [], samples := [] }

/-- One iteration of the sampling loop (lines 93-109 of the source):
draw `block_index = random.randint(0, max_blocks - 1)`, compute the offset
and percent position, position the cursor, then time the read.  `start` is
taken after `SetFilePointer` completes; `elapsed` is the clock advance of
the `ReadFile` call alone.  A raised `win32file.error` from either call is
counted as a failure and the loop continues. -/
def sampleStep (env : SampleEnv) (block_size max_blocks drive_size : Nat)
    (i : Nat) (st : LoopState) : LoopState :=
  let block_index := randint 0 (max_blocks - 1) (env.rand i)
  let offset := block_index * block_size
  let percent := ((offset : ℚ) / (drive_size : ℚ)) * 100
  match env.outcome i with
  | .posError =>
      { st with failures := st.failures + 1,
                clock := st.clock + env.setPosDur i,
                lines := st.lines ++ [.traceErr i block_index percent],
                samples := st.samples ++
                  [{ blockIndex := block_index, offset := offset, percent := percent,
                     ok := false, readLen := 0, elapsed := 0 }] }
  | .readError =>
      { st with failures := st.failures + 1,
                clock := st.clock + env.setPosDur i + env.readDur i,
                lines := st.lines ++ [.traceErr i block_index percent],
                samples := st.samples ++
                  [{ blockIndex := block_index, offset := offset, percent := percent,
                     ok := false, readLen := 0, elapsed := 0 }] }
  | .success len =>
      let start := st.clock + env.setPosDur i
      let finish := start + env.readDur i
      let elapsed := finish - start
      { total_bytes := st.total_bytes + len,
        total_time := st.total_time + elapsed,
        successes := st.successes + 1,
        failures := st.failures,
        clock := finish,
        lines := st.lines ++ [.traceOk i block_index len percent (elapsed * 1000)],
        samples := st.samples ++
          [{ blockIndex := block_index, offset := offset, percent := percent,
             ok := true, readLen := len, elapsed := elapsed }] }

/-- The whole `for i in range(num_reads)` loop. -/
def runLoop (env : SampleEnv) (num_reads block_size max_blocks drive_size : Nat) :
    LoopState :=
  (List.range num_reads).foldl
    (fun st i => sampleStep env block_size max_blocks drive_size i st) initState

/-- Everything observable about one `quick_read_test` invocation. -/
structure RunResult where
  handleEvents : List HEvent
  output : List Line
  samples : List SampleResult
  successes : Nat
  failures : Nat
  total_bytes : Nat
  total_time : ℚ

/-- Embedding of `quick_read_test` (lines 54-121 of the source).

Control flow mirrors the Python: a failed `CreateFile` prints the open error
and returns with no handle; after a successful open, the body runs inside
`try/except win32file.error/finally CloseHandle`, so the handle-close event
is emitted on the setup-failure path, the too-small early return, and normal
completion alike.  The summary always prints the success-rate line and adds
the latency/throughput lines only when `successes > 0`. -/
def quick_read_test (dev : Device) (env : SampleEnv)
    (num_reads block_size : Nat) : RunResult :=
  if dev.openOk = true then
    match dev.queryLen with
    | none =>
        { handleEvents := [.opened, .closed], output := [.errSetup],
          samples := [], successes := 0, failures := 0,
          total_bytes := 0, total_time := 0 }
    | some drive_size =>
        let max_blocks := drive_size / block_size
        if max_blocks < 1 then
          { handleEvents := [.opened, .closed], output := [.errTooSmall],
            samples := [], successes := 0, failures := 0,
            total_bytes := 0, total_time := 0 }
        else
          let st := runLoop env num_reads block_size max_blocks drive_size
          let summary :=
            [Line.successRate st.successes num_reads
              (((st.successes : ℚ) / (num_reads : ℚ)) * 100)] ++
            (if st.successes > 0 then
              [Line.avgLatency ((st.total_time / (st.successes : ℚ)) * 1000),
               Line.avgThroughput
                 (((st.total_bytes : ℚ) / ((1024 : ℚ) ^ 2)) / st.total_time)]
             else [])
          { handleEvents := [.opened, .closed], output := st.lines ++ summary,
            samples := st.samples, successes := st.successes,
            failures := st.failures, total_bytes := st.total_bytes,
            total_time := st.total_time }
  else
    { handleEvents := [], output := [.errOpening],
      samples := [], successes := 0, failures := 0,
      total_bytes := 0, total_time := 0 }

/-- Closed form of the sample recorded at iteration `i` (the loop's effect on
the sample trace does not depend on the accumulated state). -/
def sampleOf (env : SampleEnv) (block_size max_blocks drive_size i : Nat) :
    SampleResult :=
  let block_index := randint 0 (max_blocks - 1) (env.rand i)
  let offset := block_index * block_size
  let percent := ((offset : ℚ) / (drive_size : ℚ)) * 100
  match env.outcome i with
  | .success len =>
      { blockIndex := block_index, offset := offset, percent := percent,
        ok := true, readLen := len, elapsed := env.readDur i }
  | _ =>
      { blockIndex := block_index, offset := offset, percent := percent,
        ok := false, readLen := 0, elapsed := 0 }

/-- User input to the count prompt of the interactive menu: blank line,
a non-integer string, or an integer. -/
inductive UserInput where
  | blank : UserInput
  | nonInt : UserInput
  | int : Int → UserInput
deriving DecidableEq

/-- Embedding of the count-validation loop in `interactive_menu`
(lines 176-189): blank input selects the default 25, a non-integer reprompts,
and any accepted count must satisfy `1 <= n <= total_blocks` (the default is
range-checked too).  `none` models the input stream running out. -/
def promptCount (total_blocks : Nat) : List UserInput → Option Int
  | [] => none
  | inp :: rest =>
    match inp with
    | .blank =>
        if (25 : Int) < 1 ∨ (25 : Int) > (total_blocks : Int) then
          promptCount total_blocks rest
        else some 25
    | .nonInt => promptCount total_blocks rest
    | .int n =>
        if n < 1 ∨ n > (total_blocks : Int) then promptCount total_blocks rest
        else some n

/-- Embedding of the preliminary length probe in the interactive menu's
read-test branch (lines 153-169): `CreateFile`, `DeviceIoControl`, then
`CloseHandle` on the straight line, with no `finally` — a raised query error
jumps to the branch's generic `except` handler without closing the handle.
Returns the handle events and the queried length (`none` = an exception
reached the generic handler). -/
def menuProbe (dev : Device) : List HEvent × Option Nat :=
  if dev.openOk = true then
    match dev.queryLen with
    | none => ([.opened], none)
    | some drive_size => ([.opened, .closed], some drive_size)
  else ([], none)

/-- Closed form of the trace line printed at iteration `i`. -/
def lineOf (env : SampleEnv) (block_size max_blocks drive_size i : Nat) : Line :=
  let block_index := randint 0 (max_blocks - 1) (env.rand i)
  let offset := block_index * block_size
  let percent := ((offset : ℚ) / (drive_size : ℚ)) * 100
  match env.outcome i with
  | .success len => .traceOk i block_index len percent (env.readDur i * 1000)
  | _ => .traceErr i block_index percent

/-- The accumulators agree with the recorded sample trace: the success and
failure counters count the tagged samples, and the byte/time totals sum only
the successful samples' fields. -/
def statsOk (st : LoopState) : Prop :=
  st.successes = (st.samples.filter (fun s => s.ok)).length ∧
  st.failures = (st.samples.filter (fun s => !s.ok)).length ∧
  st.total_time = ((st.samples.filter (fun s => s.ok)).map (fun s => s.elapsed)).sum ∧
  st.total_bytes = ((st.samples.filter (fun s => s.ok)).map (fun s => s.readLen)).sum

/-- Whether an iteration's platform outcome is a completed read. -/
def SampleOutcome.isSuccess : SampleOutcome → Bool
  | .success _ => true
  | _ => false

/-- Recognises the two summary lines that are guarded by `successes > 0`. -/
def isAvgLine : Line → Bool
  | .avgLatency _ => true
  | .avgThroughput _ => true
  | _ => false

/-- Test fixture: a 8192-byte device that opens and answers its length query. -/
def testDev : Device := { openOk := true, queryLen := some 8192 }

/-- Test fixture: a 100-byte device (smaller than one 4096-byte block). -/
def testDevSmall : Device := { openOk := true, queryLen := some 100 }

/-- Test fixture environment: iteration 1 hits a read error, every other
iteration reads a full 4096-byte block. -/
def testEnv : SampleEnv where
  rand := fun i => i
  setPosDur := fun _ => 7
  readDur := fun i => (i : ℚ) + 1
  outcome := fun i => if i = 1 then .readError else .success 4096

/-- Test fixture environment in which every read raises. -/
def failEnv : SampleEnv where
  rand := fun i => i
  setPosDur := fun _ => 1
  readDur := fun _ => 1
  outcome := fun _ => .readError

theorem sampleStep_samples (env : SampleEnv) (B m L i : Nat) (st : LoopState) :
    (sampleStep env B m L i st).samples =
      st.samples ++ [sampleOf env B m L i] := by
  unfold sampleStep sampleOf
  cases h : env.outcome i <;> simp [h]

theorem sampleStep_lines (env : SampleEnv) (B m L i : Nat) (st : LoopState) :
    (sampleStep env B m L i st).lines = st.lines ++ [lineOf env B m L i] := by
  unfold sampleStep lineOf
  cases h : env.outcome i <;> simp [h]

theorem sampleStep_statsOk (env : SampleEnv) (B m L i : Nat) (st : LoopState)
    (h : statsOk st) : statsOk (sampleStep env B m L i st) := by
  obtain ⟨h1, h2, h3, h4⟩ := h
  unfold sampleStep
  cases ho : env.outcome i <;>
    simp_all [statsOk, List.filter_append, List.length_append]

theorem foldl_samples (env : SampleEnv) (B m L : Nat) (l : List Nat)
    (st : LoopState) :
    (l.foldl (fun st i => sampleStep env B m L i st) st).samples =
      st.samples ++ l.map (sampleOf env B m L) := by
  induction l generalizing st with
  | nil => simp
  | cons i t ih => simp [ih, sampleStep_samples]

theorem foldl_lines (env : SampleEnv) (B m L : Nat) (l : List Nat)
    (st : LoopState) :
    (l.foldl (fun st i => sampleStep env B m L i st) st).lines =
      st.lines ++ l.map (lineOf env B m L) := by
  induction l generalizing st with
  | nil => simp
  | cons i t ih => simp [ih, sampleStep_lines]

theorem foldl_statsOk (env : SampleEnv) (B m L : Nat) (l : List Nat)
    (st : LoopState) (h : statsOk st) :
    statsOk (l.foldl (fun st i => sampleStep env B m L i st) st) := by
  induction l generalizing st with
  | nil => exact h
  | cons i t ih => exact ih _ (sampleStep_statsOk env B m L i st h)

theorem runLoop_samples (env : SampleEnv) (N B m L : Nat) :
    (runLoop env N B m L).samples = (List.range N).map (sampleOf env B m L) := by
  unfold runLoop
  rw [foldl_samples]
  simp [initState]

theorem runLoop_lines (env : SampleEnv) (N B m L : Nat) :
    (runLoop env N B m L).lines = (List.range N).map (lineOf env B m L) := by
  unfold runLoop
  rw [foldl_lines]
  simp [initState]

theorem runLoop_statsOk (env : SampleEnv) (N B m L : Nat) :
    statsOk (runLoop env N B m L) := by
  unfold runLoop
  exact foldl_statsOk env B m L _ initState (by simp [statsOk, initState])

/-- On the completed-run path (open succeeds, length query returns `L`,
`L / B ≥ 1`), `quick_read_test` is the loop result plus the summary lines. -/
theorem quick_read_test_completed (dev : Device) (env : SampleEnv) (N B L : Nat)
    (hopen : dev.openOk = true) (hq : dev.queryLen = some L) (hm : 1 ≤ L / B) :
    quick_read_test dev env N B =
      { handleEvents := [.opened, .closed],
        output := (runLoop env N B (L / B) L).lines ++
          ([Line.successRate (runLoop env N B (L / B) L).successes N
              ((((runLoop env N B (L / B) L).successes : ℚ) / (N : ℚ)) * 100)] ++
           (if (runLoop env N B (L / B) L).successes > 0 then
              [Line.avgLatency (((runLoop env N B (L / B) L).total_time /
                  ((runLoop env N B (L / B) L).successes : ℚ)) * 1000),
               Line.avgThroughput ((((runLoop env N B (L / B) L).total_bytes : ℚ) /
                  ((1024 : ℚ) ^ 2)) / (runLoop env N B (L / B) L).total_time)]
            else [])),
        samples := (runLoop env N B (L / B) L).samples,
        successes := (runLoop env N B (L / B) L).successes,
        failures := (runLoop env N B (L / B) L).failures,
        total_bytes := (runLoop env N B (L / B) L).total_bytes,
        total_time := (runLoop env N B (L / B) L).total_time } := by
  unfold quick_read_test
  rw [hopen, hq]
  simp only [if_true]
  rw [if_neg (by omega : ¬ (L / B < 1))]

theorem randint_lt (m r : Nat) (hm : 1 ≤ m) : randint 0 (m - 1) r < m := by
  have h : m - 1 + 1 - 0 = m := by omega
  unfold randint
  rw [h, Nat.zero_add]
  exact Nat.mod_lt r (by omega)

theorem sampleOf_blockIndex (env : SampleEnv) (B m L i : Nat) :
    (sampleOf env B m L i).blockIndex = randint 0 (m - 1) (env.rand i) := by
  unfold sampleOf
  cases env.outcome i <;> simp

theorem sampleOf_offset (env : SampleEnv) (B m L i : Nat) :
    (sampleOf env B m L i).offset = (sampleOf env B m L i).blockIndex * B := by
  unfold sampleOf
  cases env.outcome i <;> simp

theorem sampleOf_ok_eq (env : SampleEnv) (B m L i : Nat) :
    (sampleOf env B m L i).ok = (env.outcome i).isSuccess := by
  unfold sampleOf SampleOutcome.isSuccess
  cases env.outcome i <;> simp

theorem sampleOf_elapsed_success (env : SampleEnv) (B m L i len : Nat)
    (h : env.outcome i = SampleOutcome.success len) :
    (sampleOf env B m L i).elapsed = env.readDur i := by
  unfold sampleOf
  rw [h]

theorem filter_ok_length_add (l : List SampleResult) :
    (l.filter (fun s => s.ok)).length + (l.filter (fun s => !s.ok)).length =
      l.length := by
  induction l with
  | nil => simp
  | cons a t ih =>
      cases h : a.ok <;> simp [List.filter_cons, h] <;> omega

theorem isAvgLine_lineOf (env : SampleEnv) (B m L i : Nat) :
    isAvgLine (lineOf env B m L i) = false := by
  unfold isAvgLine lineOf
  cases env.outcome i <;> simp

/-- C5: every block index drawn by the sampler lies in `[0, maxBlocks)`
with `maxBlocks = totalBytes / blockSize` by integer division, for every
draw of every completed run. -/
theorem C5_block_index_in_range (dev : Device) (env : SampleEnv) (N B L : Nat)
    (hopen : dev.openOk = true) (hq : dev.queryLen = some L)
    (hm : 1 ≤ L / B) :
    ((quick_read_test dev env N B).samples.all
      (fun s => decide (s.blockIndex < L / B))) = true := by
  rw [quick_read_test_completed dev env N B L hopen hq hm]
  simp only [List.all_eq_true, decide_eq_true_eq]
  intro s hs
  rw [runLoop_samples] at hs
  simp only [List.mem_map] at hs
  obtain ⟨i, _, rfl⟩ := hs
  rw [sampleOf_blockIndex]
  exact randint_lt _ _ hm

/-- C5 witness at a concrete 8192-byte device with 4096-byte blocks. -/
theorem C5_block_index_in_range_witness :
    ((quick_read_test testDev testEnv 2 4096).samples.all
      (fun s => decide (s.blockIndex < 8192 / 4096))) = true :=
  C5_block_index_in_range testDev testEnv 2 4096 8192 rfl rfl (by norm_num)

/-- C9: every issued read lies entirely within the device: for each sample,
`offset = blockIndex * blockSize` and `offset + blockSize ≤ totalBytes`. -/
theorem C9_reads_within_device (dev : Device) (env : SampleEnv) (N B L : Nat)
    (hopen : dev.openOk = true) (hq : dev.queryLen = some L)
    (hm : 1 ≤ L / B) :
    ((quick_read_test dev env N B).samples.all
      (fun s => decide (s.offset = s.blockIndex * B ∧ s.offset + B ≤ L))) = true := by
  rw [quick_read_test_completed dev env N B L hopen hq hm]
  simp only [List.all_eq_true, decide_eq_true_eq]
  intro s hs
  rw [runLoop_samples] at hs
  simp only [List.mem_map] at hs
  obtain ⟨i, _, rfl⟩ := hs
  refine ⟨sampleOf_offset env B (L / B) L i, ?_⟩
  rw [sampleOf_offset env B (L / B) L i, sampleOf_blockIndex]
  have hlt : randint 0 (L / B - 1) (env.rand i) < L / B := randint_lt _ _ hm
  calc randint 0 (L / B - 1) (env.rand i) * B + B
      = (randint 0 (L / B - 1) (env.rand i) + 1) * B := by ring
    _ ≤ (L / B) * B := Nat.mul_le_mul_right B (by omega)
    _ ≤ L := Nat.div_mul_le_self L B

/-- C9 witness at a concrete 8192-byte device with 4096-byte blocks. -/
theorem C9_reads_within_device_witness :
    ((quick_read_test testDev testEnv 2 4096).samples.all
      (fun s => decide (s.offset = s.blockIndex * 4096 ∧ s.offset + 4096 ≤ 8192))) =
      true :=
  C9_reads_within_device testDev testEnv 2 4096 8192 rfl rfl (by norm_num)

/-- C6: a device whose queried length is smaller than one block
(`totalBytes / blockSize < 1`) fails with the drive-too-small error and
performs zero read attempts. -/
theorem C6_drive_too_small (dev : Device) (env : SampleEnv) (N B L : Nat)
    (hopen : dev.openOk = true) (hq : dev.queryLen = some L)
    (hm : L / B < 1) :
    (quick_read_test dev env N B).output = [Line.errTooSmall] ∧
    (quick_read_test dev env N B).samples = [] := by
  unfold quick_read_test
  rw [hopen, hq]
  simp [hm]

/-- C6 witness: a 100-byte device with 4096-byte blocks. -/
theorem C6_drive_too_small_witness :
    (quick_read_test testDevSmall testEnv 5 4096).output = [Line.errTooSmall] ∧
    (quick_read_test testDevSmall testEnv 5 4096).samples = [] :=
  C6_drive_too_small testDevSmall testEnv 5 4096 100 rfl rfl (by norm_num)

/-- C2: a sampler invocation opens at most one handle; a failed open reports
the open error with no handle event at all; after a successful open the
handle events are exactly open-then-close on every exit path (length-query
failure, drive-too-small early return, and normal completion alike, since
the statement holds for every `queryLen` and every environment). -/
theorem C2_handle_lifecycle (env : SampleEnv) (N B : Nat) (q : Option Nat) :
    (quick_read_test { openOk := false, queryLen := q } env N B).handleEvents = [] ∧
    (quick_read_test { openOk := false, queryLen := q } env N B).output =
      [Line.errOpening] ∧
    (quick_read_test { openOk := true, queryLen := q } env N B).handleEvents =
      [HEvent.opened, HEvent.closed] ∧
    ∀ dev : Device,
      ((quick_read_test dev env N B).handleEvents.count HEvent.opened) ≤ 1 := by
  refine ⟨by simp [quick_read_test], by simp [quick_read_test], ?_, ?_⟩
  · unfold quick_read_test
    cases q with
    | none => simp
    | some L =>
        by_cases hm : L / B < 1 <;> simp [hm]
  · intro dev
    unfold quick_read_test
    cases hopen : dev.openOk with
    | false => simp
    | true =>
        cases hq : dev.queryLen with
        | none => simp [List.count_cons]
        | some L =>
            by_cases hm : L / B < 1 <;> simp [hm, List.count_cons]

/-- C10: in the menu's read-test branch, the preliminary handle is closed
exactly when the length query returns successfully; when the query raises,
the branch ends in the generic handler with the handle still open. -/
theorem C10_menu_probe_close (L : Nat) :
    (menuProbe { openOk := true, queryLen := some L }).1 =
      [HEvent.opened, HEvent.closed] ∧
    (menuProbe { openOk := true, queryLen := some L }).2 = some L ∧
    (menuProbe { openOk := true, queryLen := none }).1 = [HEvent.opened] ∧
    HEvent.closed ∉ (menuProbe { openOk := true, queryLen := none }).1 ∧
    (menuProbe { openOk := true, queryLen := none }).2 = none := by
  refine ⟨rfl, rfl, rfl, ?_, rfl⟩
  simp [menuProbe]

theorem filter_isAvgLine_map (env : SampleEnv) (B m L : Nat) (l : List Nat) :
    ((l.map (lineOf env B m L)).filter isAvgLine) = [] := by
  induction l with
  | nil => rfl
  | cons a t ih => simp [List.filter_cons, isAvgLine_lineOf, ih]

/-- C1: a completed run with `N ≥ 1` requested samples records exactly `N`
per-sample outcomes, each tagged success or failure, with
`successes + failures = N`; a read error at any index is recorded as a
failure for that index and the loop continues, so the trace still has all
`N` entries. -/
theorem C1_sample_count (dev : Device) (env : SampleEnv) (N B L : Nat)
    (hN : 1 ≤ N) (hopen : dev.openOk = true) (hq : dev.queryLen = some L)
    (hm : 1 ≤ L / B) (i : Nat) (hi : i < N) :
    (quick_read_test dev env N B).samples.length = N ∧
    ((quick_read_test dev env N B).samples.filter (fun s => s.ok)).length +
      ((quick_read_test dev env N B).samples.filter (fun s => !s.ok)).length = N ∧
    (quick_read_test dev env N B).successes +
      (quick_read_test dev env N B).failures = N ∧
    ((quick_read_test dev env N B).samples[i]?.map (fun s => s.ok)) =
      some ((env.outcome i).isSuccess) := by
  rw [quick_read_test_completed dev env N B L hopen hq hm]
  dsimp only
  obtain ⟨e1, e2, _, _⟩ := runLoop_statsOk env N B (L / B) L
  have hlen : (runLoop env N B (L / B) L).samples.length = N := by
    rw [runLoop_samples]
    simp
  refine ⟨hlen, ?_, ?_, ?_⟩
  · rw [filter_ok_length_add, hlen]
  · rw [e1, e2, filter_ok_length_add, hlen]
  · rw [runLoop_samples, List.getElem?_map, List.getElem?_range hi]
    simp only [Option.map_some']
    rw [sampleOf_ok_eq env B (L / B) L i]

/-- C1 witness: a two-sample run on the 8192-byte fixture in which sample 1
hits a read error. -/
theorem C1_sample_count_witness :
    (quick_read_test testDev testEnv 2 4096).samples.length = 2 ∧
    ((quick_read_test testDev testEnv 2 4096).samples.filter (fun s => s.ok)).length +
      ((quick_read_test testDev testEnv 2 4096).samples.filter (fun s => !s.ok)).length = 2 ∧
    (quick_read_test testDev testEnv 2 4096).successes +
      (quick_read_test testDev testEnv 2 4096).failures = 2 ∧
    ((quick_read_test testDev testEnv 2 4096).samples[1]?.map (fun s => s.ok)) =
      some ((testEnv.outcome 1).isSuccess) :=
  C1_sample_count testDev testEnv 2 4096 8192 (by norm_num) rfl rfl (by norm_num)
    1 (by norm_num)

/-- C3: a completed run with zero successes reports the 0% success-rate line
and emits no average-latency and no average-throughput line. -/
theorem C3_zero_success_summary (dev : Device) (env : SampleEnv) (N B L : Nat)
    (hopen : dev.openOk = true) (hq : dev.queryLen = some L) (hm : 1 ≤ L / B)
    (h0 : (quick_read_test dev env N B).successes = 0) :
    Line.successRate 0 N 0 ∈ (quick_read_test dev env N B).output ∧
    (quick_read_test dev env N B).output.filter isAvgLine = [] := by
  rw [quick_read_test_completed dev env N B L hopen hq hm] at h0 ⊢
  dsimp only at h0 ⊢
  rw [h0]
  constructor
  · simp
  · rw [runLoop_lines]
    simp [List.filter_append, filter_isAvgLine_map, isAvgLine]

/-- C3 witness: a two-sample run in which every read raises. -/
theorem C3_zero_success_summary_witness :
    Line.successRate 0 2 0 ∈ (quick_read_test testDev failEnv 2 4096).output ∧
    (quick_read_test testDev failEnv 2 4096).output.filter isAvgLine = [] :=
  C3_zero_success_summary testDev failEnv 2 4096 8192 rfl rfl (by norm_num) (by decide)

/-- C4: a completed run with `successes > 0` reports an average latency equal
to the sum of the successful samples' elapsed times divided by their number
(in milliseconds), and an average throughput equal to the sum of the
successful samples' byte counts divided by the sum of their elapsed times,
expressed in mebibytes (1024 × 1024 bytes) per second; failed samples
contribute to neither total. -/
theorem C4_averages (dev : Device) (env : SampleEnv) (N B L : Nat)
    (hopen : dev.openOk = true) (hq : dev.queryLen = some L) (hm : 1 ≤ L / B)
    (hs : 0 < (quick_read_test dev env N B).successes) :
    Line.avgLatency
        ((((((quick_read_test dev env N B).samples.filter (fun s => s.ok)).map
              (fun s => s.elapsed)).sum) /
          ((((quick_read_test dev env N B).samples.filter (fun s => s.ok)).length : ℚ)))
          * 1000)
      ∈ (quick_read_test dev env N B).output ∧
    Line.avgThroughput
        (((((((quick_read_test dev env N B).samples.filter (fun s => s.ok)).map
              (fun s => s.readLen)).sum : ℕ) : ℚ) /
          ((((quick_read_test dev env N B).samples.filter (fun s => s.ok)).map
              (fun s => s.elapsed)).sum)) / (1024 * 1024))
      ∈ (quick_read_test dev env N B).output := by
  rw [quick_read_test_completed dev env N B L hopen hq hm] at hs ⊢
  dsimp only at hs ⊢
  obtain ⟨e1, _, e3, e4⟩ := runLoop_statsOk env N B (L / B) L
  rw [← e1, ← e3, ← e4, if_pos hs]
  constructor
  · simp [List.mem_append]
  · have hth : (((runLoop env N B (L / B) L).total_bytes : ℚ) /
        (runLoop env N B (L / B) L).total_time) / (1024 * 1024) =
        (((runLoop env N B (L / B) L).total_bytes : ℚ) / ((1024 : ℚ) ^ 2)) /
          (runLoop env N B (L / B) L).total_time := by
      rw [div_right_comm]
      norm_num
    rw [hth]
    simp [List.mem_append]

/-- C4 witness: the two-sample fixture run (one success, one read error). -/
theorem C4_averages_witness :
    Line.avgLatency
        ((((((quick_read_test testDev testEnv 2 4096).samples.filter (fun s => s.ok)).map
              (fun s => s.elapsed)).sum) /
          ((((quick_read_test testDev testEnv 2 4096).samples.filter (fun s => s.ok)).length : ℚ)))
          * 1000)
      ∈ (quick_read_test testDev testEnv 2 4096).output ∧
    Line.avgThroughput
        (((((((quick_read_test testDev testEnv 2 4096).samples.filter (fun s => s.ok)).map
              (fun s => s.readLen)).sum : ℕ) : ℚ) /
          ((((quick_read_test testDev testEnv 2 4096).samples.filter (fun s => s.ok)).map
              (fun s => s.elapsed)).sum)) / (1024 * 1024))
      ∈ (quick_read_test testDev testEnv 2 4096).output :=
  C4_averages testDev testEnv 2 4096 8192 rfl rfl (by norm_num) (by decide)

/-- C7: the recorded elapsed time of a successful sample is the duration of
the read call alone: positioning completes before timing starts, so the
recorded value equals the read duration whatever the positioning call took. -/
theorem C7_latency_excludes_positioning (dev : Device) (env : SampleEnv)
    (N B L : Nat) (hopen : dev.openOk = true) (hq : dev.queryLen = some L)
    (hm : 1 ≤ L / B) (i len : Nat) (hi : i < N)
    (hsucc : env.outcome i = SampleOutcome.success len) :
    ((quick_read_test dev env N B).samples[i]?.map (fun s => s.elapsed)) =
      some (env.readDur i) := by
  rw [quick_read_test_completed dev env N B L hopen hq hm]
  dsimp only
  rw [runLoop_samples, List.getElem?_map, List.getElem?_range hi]
  simp only [Option.map_some']
  rw [sampleOf_elapsed_success env B (L / B) L i len hsucc]

/-- C7 witness: sample 0 of the fixture run succeeds and its recorded elapsed
time is the read duration, not the positioning duration. -/
theorem C7_latency_excludes_positioning_witness :
    ((quick_read_test testDev testEnv 2 4096).samples[0]?.map (fun s => s.elapsed)) =
      some (testEnv.readDur 0) :=
  C7_latency_excludes_positioning testDev testEnv 2 4096 8192 rfl rfl (by norm_num)
    0 4096 (by norm_num) rfl

/-- C8: the menu's count prompt only ever accepts a value in
`[1, total_blocks]`; a non-integer entry re-prompts, and an out-of-range
integer entry re-prompts, neither being fatal. -/
theorem C8_count_validation (total_blocks : Nat) (inputs rest : List UserInput)
    (n m : Int) (hacc : promptCount total_blocks inputs = some n)
    (hm : m < 1 ∨ m > (total_blocks : Int)) :
    (1 ≤ n ∧ n ≤ (total_blocks : Int)) ∧
    promptCount total_blocks (UserInput.nonInt :: rest) =
      promptCount total_blocks rest ∧
    promptCount total_blocks (UserInput.int m :: rest) =
      promptCount total_blocks rest := by
  refine ⟨?_, rfl, ?_⟩
  · induction inputs with
    | nil => simp [promptCount] at hacc
    | cons a t ih =>
        cases a with
        | blank =>
            rw [show promptCount total_blocks (UserInput.blank :: t) =
                if (25 : Int) < 1 ∨ (25 : Int) > (total_blocks : Int) then
                  promptCount total_blocks t
                else some 25 from rfl] at hacc
            split at hacc
            · exact ih hacc
            · rename_i hb
              push_neg at hb
              obtain rfl : (25 : Int) = n := Option.some.inj hacc
              omega
        | nonInt => exact ih hacc
        | int k =>
            rw [show promptCount total_blocks (UserInput.int k :: t) =
                if k < 1 ∨ k > (total_blocks : Int) then
                  promptCount total_blocks t
                else some k from rfl] at hacc
            split at hacc
            · exact ih hacc
            · rename_i hb
              push_neg at hb
              obtain rfl : k = n := Option.some.inj hacc
              omega
  · rw [show promptCount total_blocks (UserInput.int m :: rest) =
        if m < 1 ∨ m > (total_blocks : Int) then promptCount total_blocks rest
        else some m from rfl, if_pos hm]

/-- C8 witness: with 30 total blocks, the stream non-integer, 0, 31, 5 is
re-prompted three times and accepts 5, which lies in `[1, 30]`. -/
theorem C8_count_validation_witness :
    ((1 : Int) ≤ 5 ∧ (5 : Int) ≤ ((30 : Nat) : Int)) ∧
    promptCount 30 [UserInput.nonInt, UserInput.blank] =
      promptCount 30 [UserInput.blank] ∧
    promptCount 30 [UserInput.int 0, UserInput.blank] =
      promptCount 30 [UserInput.blank] :=
  C8_count_validation 30
    [UserInput.nonInt, UserInput.int 0, UserInput.int 31, UserInput.int 5]
    [UserInput.blank] 5 0 (by decide) (by decide)

end DriveTester
